import Mathlib

/-!
Verification of the PyWO core layer: the window-geometry normalization code
in `pywo/core/windows.py` and the event dispatcher in `pywo/core/dispatch.py`,
embedded shallowly in Lean.  Pure computations are translated into Lean
functions; the external X protocol round-trips (property reads, coordinate
translation, the window tree) become explicit inputs, and fallible reads
return `Except`/`Option`.  The value types of `pywo/core/basic.py`
(`Geometry`, `Extents`, `Gravity`) are not part of the sources; they are
modelled from the specification's data-model section where needed.
-/

namespace Pywo

/-- Enum of window manager types (`Type` in `pywo/core/windows.py`). -/
inductive WMType where
  | compiz | metacity | kwin | xfwm | openbox | fluxbox | blackbox
  | icewm | enlightment | window_maker | sawfish | pekwm | unknown
  deriving DecidableEq, Repr

/-- Hack table `Hacks.DONT_TRANSLATE_COORDS` from `windows.py`. -/
def Hacks.DONT_TRANSLATE_COORDS : List WMType :=
  [.compiz, .fluxbox, .window_maker]

/-- Hack table `Hacks.ADJUST_GEOMETRY` from `windows.py`. -/
def Hacks.ADJUST_GEOMETRY : List WMType :=
  [.compiz, .kwin, .enlightment, .icewm, .blackbox]

/-- Hack table `Hacks.PARENT_XY` from `windows.py`. -/
def Hacks.PARENT_XY : List WMType :=
  [.fluxbox, .window_maker]

/-- Hack table `Hacks.CALCULATE_EXTENTS` from `windows.py`. -/
def Hacks.CALCULATE_EXTENTS : List WMType :=
  [.blackbox, .icewm, .sawfish, .window_maker, .unknown]

/-- Modelled from the spec: `Extents` lives in the missing
`pywo/core/basic.py`; per the data model, each of the four fields is
either unset (`None`) or a concrete integer. -/
structure Extents where
  left : Option Int
  right : Option Int
  top : Option Int
  bottom : Option Int
  deriving DecidableEq, Repr

/-- Modelled from the spec: `horizontal = left + right` (unset reads as 0). -/
def Extents.horizontal (e : Extents) : Int := e.left.getD 0 + e.right.getD 0

/-- Modelled from the spec: `vertical = top + bottom` (unset reads as 0). -/
def Extents.vertical (e : Extents) : Int := e.top.getD 0 + e.bottom.getD 0

/-- Modelled from the spec: an `Extents` value is falsy in Python
(`not extents`) exactly when the window reports no extents, i.e. all four
fields are unset. -/
def Extents.isUnknown (e : Extents) : Bool :=
  e.left.isNone && e.right.isNone && e.top.isNone && e.bottom.isNone

/-- Modelled from the spec: `Geometry` from the missing `pywo/core/basic.py`:
`(x, y, width, height)`; `x2 = x + width` and `y2 = y + height` are derived. -/
structure Geometry where
  x : Int
  y : Int
  width : Int
  height : Int
  deriving DecidableEq, Repr

def Geometry.x2 (g : Geometry) : Int := g.x + g.width

def Geometry.y2 (g : Geometry) : Int := g.y + g.height

/-- Modelled from the spec: `area` is `width * height`. -/
def Geometry.area (g : Geometry) : Int := g.width * g.height

/-- Modelled from the spec: intersection (`&`) of two geometries yields the
overlapping rectangle, or a null/empty result (`none`) if they are
disjoint. -/
def Geometry.inter (a b : Geometry) : Option Geometry :=
  let x := max a.x b.x
  let y := max a.y b.y
  let x2 := min a.x2 b.x2
  let y2 := min a.y2 b.y2
  if x < x2 ∧ y < y2 then some ⟨x, y, x2 - x, y2 - y⟩ else none

/-- Position returned by the X server (used for `_translate_coords` results). -/
structure Position where
  x : Int
  y : Int
  deriving DecidableEq, Repr

/-- Raw window geometry as returned by `Window.__geometry()` in `windows.py`
(after the `PARENT_XY` substitution): `(x, y, width, height)`. -/
structure RawGeo where
  x : Int
  y : Int
  width : Int
  height : Int
  deriving DecidableEq, Repr

/-- Embedding of the `Window.geometry` property (`windows.py` lines 355-384).
Inputs are the raw geometry from `__geometry()`, the result `translated` of
the external `_translate_coords(x, y)` round-trip, the window's computed
extents, and the window manager type. -/
def Window.geometry (wm : WMType) (raw : RawGeo) (translated : Position)
    (extents : Extents) : Geometry :=
  let xy : Int × Int :=
    if ¬ wm ∈ Hacks.DONT_TRANSLATE_COORDS ∧
       ¬ (wm = WMType.metacity ∧ extents.isUnknown) then
      (-translated.x, -translated.y)
    else
      (raw.x, raw.y)
  let xy2 : Int × Int :=
    if wm ∈ Hacks.ADJUST_GEOMETRY then
      (xy.1 - extents.left.getD 0, xy.2 - extents.top.getD 0)
    else
      xy
  ⟨xy2.1, xy2.2, raw.width + extents.horizontal, raw.height + extents.vertical⟩

/-- Raw X server geometry of a window in the frame tree, including the
border width (used by the `CALCULATE_EXTENTS` hack). -/
structure XWinGeo where
  x : Int
  y : Int
  width : Int
  height : Int
  border_width : Int
  deriving DecidableEq, Repr

/-- Snapshot of the window's frame tree used by `Window.extents`:
`query_tree().parent` of the window, and that frame's own parent. -/
structure TreeInfo where
  winGeo : XWinGeo
  parentId : Nat
  parentGeo : XWinGeo
  grandparentId : Nat
  grandparentGeo : XWinGeo
  deriving DecidableEq, Repr

/-- Embedding of the `CALCULATE_EXTENTS` branch of `Window.extents`
(`windows.py` lines 315-334): walk up the parent chain; if it reaches the
root the extents are unknown, otherwise derive left/top from the child
offset and right/bottom from the parent-minus-child size difference. -/
def Window.extentsCalc (rootId : Nat) (t : TreeInfo) : Extents :=
  if t.parentId = rootId then ⟨none, none, none, none⟩
  else
    let step :
        XWinGeo × XWinGeo × Nat :=
      if t.winGeo.width = t.parentGeo.width ∧
         t.winGeo.height = t.parentGeo.height then
        (t.parentGeo, t.grandparentGeo, t.grandparentId)
      else
        (t.winGeo, t.parentGeo, t.parentId)
    let win := step.1
    let parent := step.2.1
    let parentId := step.2.2
    if parentId = rootId then ⟨none, none, none, none⟩
    else
      let border_widths := win.border_width + parent.border_width
      let parent_border := parent.border_width * 2
      let left := win.x + border_widths
      let top := win.y + border_widths
      let right := parent.width - win.width - left + parent_border
      let bottom := parent.height - win.height - top + parent_border
      ⟨some left, some right, some top, some bottom⟩

/-- Embedding of the `Window.extents` property (`windows.py` lines 311-342).
`raw` is the `_NET_FRAME_EXTENTS` property (absent or four values),
`obUndecorated` tells whether `_OB_WM_STATE_UNDECORATED` is in the window's
state, and `t` is the frame-tree snapshot for the calculate hack. -/
def Window.extents (wm : WMType) (raw : Option (Int × Int × Int × Int))
    (obUndecorated : Bool) (rootId : Nat) (t : TreeInfo) : Extents :=
  match raw with
  | none =>
    if wm ∈ Hacks.CALCULATE_EXTENTS then Window.extentsCalc rootId t
    else ⟨none, none, none, none⟩
  | some (l, r, tp, b) =>
    if wm = WMType.openbox ∧ obUndecorated then ⟨some 1, some 1, some 1, some 1⟩
    else ⟨some l, some r, some tp, some b⟩

/-- Holds when all four extents fields are unset. -/
def Extents.allNone (e : Extents) : Bool :=
  e.left.isNone && e.right.isNone && e.top.isNone && e.bottom.isNone

/-- Holds when all four extents fields are concrete integers. -/
def Extents.allSome (e : Extents) : Bool :=
  e.left.isSome && e.right.isSome && e.top.isSome && e.bottom.isSome

/-- ICCCM size hints (`get_wm_normal_hints()` result); in the X protocol a
field holds 0 when the hint is unset, and Python treats 0 as falsy. -/
structure SizeHints where
  win_gravity_static : Bool
  max_width : Int
  max_height : Int
  min_width : Int
  min_height : Int
  width_inc : Int
  height_inc : Int
  base_width : Int
  base_height : Int
  deriving DecidableEq, Repr

/-- Embedding of the width hint arithmetic of `Window.set_geometry`
(`windows.py` lines 409-427): clamp to max, clamp to min, then quantize to
the increment grid (Python division of ints floors, and `%` follows the
divisor, hence `Int.fdiv`/`Int.fmod`). -/
def Window.applyWidthHints (h : SizeHints) (currentWidth w0 : Int) : Int :=
  let w1 := if h.max_width ≠ 0 then min w0 h.max_width else w0
  let w2 := if h.min_width ≠ 0 then max w1 h.min_width else w1
  if h.width_inc ≠ 0 then
    let base := if h.base_width ≠ 0 then h.base_width
                else Int.fmod currentWidth h.width_inc
    let wq := Int.fdiv (w2 - base) h.width_inc * h.width_inc + base
    if h.min_width ≠ 0 ∧ wq < h.min_width then wq + h.width_inc else wq
  else w2

/-- Embedding of the height hint arithmetic of `Window.set_geometry`
(`windows.py` lines 428-436).  Note the add-back guard tests
`hints.height_inc` (not `hints.min_height`) before `height < min_height`,
exactly as the source does. -/
def Window.applyHeightHints (h : SizeHints) (currentHeight h0 : Int) : Int :=
  let h1 := if h.max_height ≠ 0 then min h0 h.max_height else h0
  let h2 := if h.min_height ≠ 0 then max h1 h.min_height else h1
  if h.height_inc ≠ 0 then
    let base := if h.base_height ≠ 0 then h.base_height
                else Int.fmod currentHeight h.height_inc
    let hq := Int.fdiv (h2 - base) h.height_inc * h.height_inc + base
    if h.height_inc ≠ 0 ∧ hq < h.min_height then hq + h.height_inc else hq
  else h2

/-- Hint pipeline exactly as the specification words it (for one
dimension): clamp to the hinted maximum (if set), then to the hinted
minimum (if set), then quantize as
`floor((target - base) / increment) * increment + base` where `base` is the
declared base size or, if absent, the current size modulo the increment,
with one increment added back if the quantized value falls below the
(set) minimum. -/
def specHintPipeline (maxv minv inc basev current target : Int) : Int :=
  let w1 := if maxv ≠ 0 then min target maxv else target
  let w2 := if minv ≠ 0 then max w1 minv else w1
  if inc ≠ 0 then
    let base := if basev ≠ 0 then basev else Int.fmod current inc
    let wq := Int.fdiv (w2 - base) inc * inc + base
    if minv ≠ 0 ∧ wq < minv then wq + inc else wq
  else w2

/-- Gravity anchor: a pair of fractions in `[0, 1]` (modelled from the spec,
`Gravity` lives in the missing `pywo/core/basic.py`). -/
structure Gravity where
  x : ℚ
  y : ℚ
  deriving DecidableEq, Repr

/-- Arguments of the final `configure` request issued by
`Window.set_geometry`; x/y are rationals because Python multiplies the
position delta by the float gravity fractions. -/
structure ConfigureReq where
  x : ℚ
  y : ℚ
  width : Int
  height : Int
  deriving DecidableEq, Repr

/-- Embedding of `Window.set_geometry` (`windows.py` lines 386-441):
subtract extents to get the client size, apply the StaticGravity fix, apply
the size hints, redistribute the position delta according to `on_resize`,
and issue one configure request. -/
def Window.set_geometry (extents : Extents) (current : RawGeo)
    (hints : Option SizeHints) (g : Geometry) (on_resize : Gravity) :
    ConfigureReq :=
  let x : ℚ := (g.x : ℚ)
  let y : ℚ := (g.y : ℚ)
  let width := g.width - extents.horizontal
  let height := g.height - extents.vertical
  let geometry_size := (width, height)
  let xy : ℚ × ℚ :=
    match hints with
    | some h =>
      if h.win_gravity_static then
        (x + (extents.left.getD 0 : ℚ), y + (extents.top.getD 0 : ℚ))
      else (x, y)
    | none => (x, y)
  let width := match hints with
    | some h => Window.applyWidthHints h current.width width
    | none => width
  let height := match hints with
    | some h => Window.applyHeightHints h current.height height
    | none => height
  let xy2 : ℚ × ℚ :=
    if (width, height) ≠ geometry_size then
      (xy.1 + ((geometry_size.1 - width : Int) : ℚ) * on_resize.x,
       xy.2 + ((geometry_size.2 - height : Int) : ℚ) * on_resize.y)
    else xy
  ⟨xy2.1, xy2.2, width, height⟩

/-- Raw X event as seen by `EventDispatcher.__dispatch` (`dispatch.py`):
an event type tag plus the addressing fields that may or may not be present
on the event (`event.parent`, `event.event`, `event.window`). -/
structure XEvent where
  type : Nat
  parent : Option Nat
  event : Option Nat
  window : Option Nat
  deriving DecidableEq, Repr

/-- Python set of handlers, identified by handler ids. -/
abbrev HandlerSet := List Nat

/-- Inner dict of `EventDispatcher.__handlers`: window id to handler set. -/
abbrev TypeHandlers := List (Nat × HandlerSet)

/-- The dispatcher's `__handlers` dict: event type to per-window handler
sets, modelled as an insertion-ordered association list with unique keys. -/
abbrev HandlersMap := List (Nat × TypeHandlers)

/-- Dict lookup (`d.get(k)` / `k in d`). -/
def lookupA {α : Type} (m : List (Nat × α)) (k : Nat) : Option α :=
  match m with
  | [] => none
  | (j, v) :: rest => if j = k then some v else lookupA rest k

/-- Dict write (`d[k] = v`, also the net effect of `setdefault` followed by
a mutation): replaces the value in place, or appends the new key. -/
def setA {α : Type} (m : List (Nat × α)) (k : Nat) (v : α) : List (Nat × α) :=
  match m with
  | [] => [(k, v)]
  | (j, w) :: rest => if j = k then (k, v) :: rest else (j, w) :: setA rest k v

/-- Dict key removal (`d.pop(k, None)`). -/
def eraseA {α : Type} (m : List (Nat × α)) (k : Nat) : List (Nat × α) :=
  m.filter (fun p => p.1 != k)

/-- Python `set.add`. -/
def setAdd (ws : HandlerSet) (hid : Nat) : HandlerSet :=
  if hid ∈ ws then ws else ws ++ [hid]

/-- One iteration of the loop in `EventDispatcher.register`
(`dispatch.py` lines 68-71): `setdefault` the event type, `setdefault` the
window id, add the handler to the set. -/
def EventDispatcher.registerOne (m : HandlersMap) (t w hid : Nat) :
    HandlersMap :=
  let th := (lookupA m t).getD []
  let ws := (lookupA th w).getD []
  setA m t (setA th w (setAdd ws hid))

/-- Embedding of `EventDispatcher.register` (`dispatch.py` lines 65-74): a
handler with id `hid` declaring interest in `types` is added for window
`w`. -/
def EventDispatcher.register (m : HandlersMap) (w : Nat) (types : List Nat)
    (hid : Nat) : HandlersMap :=
  types.foldl (fun acc t => EventDispatcher.registerOne acc t w hid) m

/-- Embedding of `EventDispatcher.unregister` for a given window
(`dispatch.py` lines 91-99): for every event type that has an entry for the
window, either `discard` the one handler (`hid = some h`) or `pop` the whole
window entry (`hid = none`); afterwards drop the event type if its inner
dict became empty. -/
def EventDispatcher.unregister (m : HandlersMap) (w : Nat)
    (hid : Option Nat) : HandlersMap :=
  m.filterMap (fun p =>
    match lookupA p.2 w with
    | none => some p
    | some ws =>
      let th2 := match hid with
        | some h => setA p.2 w (ws.filter (fun x => x != h))
        | none => eraseA p.2 w
      if th2.isEmpty then none else some (p.1, th2))

/-- Loop condition of `EventDispatcher.run` (`while self.__handlers:`,
`dispatch.py` line 59): the outer dict is non-empty. -/
def EventDispatcher.loopContinues (m : HandlersMap) : Bool := !m.isEmpty

/-- Whether at least one handler is actually registered somewhere (what the
claim means by "the handler set is empty" when negated). -/
def EventDispatcher.hasAnyHandler (m : HandlersMap) : Bool :=
  m.any (fun p => p.2.any (fun q => !q.2.isEmpty))

/-- Poll interval of the dispatch loop: `time.sleep(0.1)`, i.e. 100 ms. -/
def EventDispatcher.POLL_INTERVAL_MS : Nat := 100

/-- Embedding of the handler-selection part of `EventDispatcher.__dispatch`
(`dispatch.py` lines 128-140): drop the event if its type has no entry;
otherwise take the handlers keyed on `event.parent` if that field is present
and its id is a key, else those keyed on `event.event` under the same
proviso, else those keyed on `event.window`; finally always extend with the
handlers keyed on the root window.  Returns handler ids in invocation
order. -/
def EventDispatcher.dispatchSelected (handlers : HandlersMap) (root : Nat)
    (e : XEvent) : List Nat :=
  match lookupA handlers e.type with
  | none => []
  | some th =>
    let fromKey : Option Nat → Option HandlerSet := fun o =>
      match o with
      | none => none
      | some w => lookupA th w
    let specific : List Nat :=
      match fromKey e.parent with
      | some hs => hs
      | none =>
        match fromKey e.event with
        | some hs => hs
        | none => (fromKey e.window).getD []
    specific ++ (lookupA th root).getD []

/-- Selection as claim C4 words it: the handlers registered under the single
most specific addressing field present on the event (parent if present, else
event-source, else target-window), plus the handlers registered against the
root window. -/
def claimC4Selected (handlers : HandlersMap) (root : Nat) (e : XEvent) :
    List Nat :=
  match lookupA handlers e.type with
  | none => []
  | some th =>
    let field : Option Nat :=
      match e.parent with
      | some p => some p
      | none =>
        match e.event with
        | some w => some w
        | none => e.window
    (match field with
     | some w => (lookupA th w).getD []
     | none => []) ++ (lookupA th root).getD []

/-- Addressing key the dispatcher actually uses for an event: the first
field among parent, event-source, target-window that is present on the
event and has an entry (even an empty one) for the event type. -/
def EventDispatcher.chosenKey (th : TypeHandlers) (e : XEvent) : Option Nat :=
  let keyIfRegistered : Option Nat → Option Nat := fun o =>
    match o with
    | none => none
    | some w => if (lookupA th w).isSome then some w else none
  match keyIfRegistered e.parent with
  | some p => some p
  | none =>
    match keyIfRegistered e.event with
    | some w => some w
    | none => keyIfRegistered e.window

/-- One comparison step of `sorted(screens_by_area)[-1]` in
`WindowManager.nearest_screen_geometry`: keep whichever of the accumulator
and the next `(area, screen)` pair has the larger area (the tie order of the
source is implementation-defined; this model keeps the later pair). -/
def selStep (acc : Option (Int × Geometry)) (p : Int × Geometry) :
    Option (Int × Geometry) :=
  match acc with
  | none => some p
  | some q => if q.1 ≤ p.1 then some p else some q

/-- Largest element of the `(area, screen)` list

(`sorted(screens_by_area)[-1]`); `none` when the list is empty, where the
source raises `IndexError`. -/
def selectLargest (l : List (Int × Geometry)) : Option (Int × Geometry) :=
  l.foldl selStep none

/-- Embedding of `WindowManager.nearest_screen_geometry` (`windows.py`
lines 832-845): intersect the rectangle with every screen, drop empty
intersections, pick the screen with the largest intersection area and
return it intersected with the workarea geometry. -/
def WindowManager.nearest_screen_geometry (screens : List Geometry)
    (workarea geometry : Geometry) : Option Geometry :=
  let screens_by_area := screens.filterMap
    (fun screen =>
      (Geometry.inter screen geometry).map (fun i => (i.area, screen)))
  match selectLargest screens_by_area with
  | none => none
  | some p => Geometry.inter p.2 workarea

/-- Embedding of the handler-invocation loop of `EventDispatcher.__dispatch`
(`dispatch.py` lines 141-142): `for handler in handlers:
handler.handle_event(event)`.  The call into a handler is fallible and the
source has no `try`/`except` around it, so an error propagates immediately
(out of `__dispatch` and out of `run`, killing the thread).  Returns how
many handlers were invoked and the propagated error, if any. -/
def EventDispatcher.invokeHandlers (hs : List (XEvent → Except String Unit))
    (e : XEvent) : Nat × Option String :=
  match hs with
  | [] => (0, none)
  | h :: rest =>
    match h e with
    | .ok _ =>
      let r := EventDispatcher.invokeHandlers rest e
      (r.1 + 1, r.2)
    | .error s => (1, some s)

/-- Value of `Window.ALL_DESKTOPS` (`0xFFFFFFFF`). -/
def ALL_DESKTOPS : Nat := 4294967295

/-- Whether the needle is an initial segment of the hay (used to embed
Python's substring search). -/
def leadMatch : List Char → List Char → Bool
  | [], _ => true
  | _ :: _, [] => false
  | a :: as, b :: bs => a == b && leadMatch as bs

/-- Python `hay.find(needle)`: the first index at which the needle occurs,
`none` when it does not occur (`find` returns -1 there, but the source only
uses it under an `in` guard). -/
def findIdx (hay needle : List Char) : Option Nat :=
  (List.range (hay.length + 1)).find? (fun i => leadMatch needle (hay.drop i))

/-- Python `hay.rfind(needle)`: the last index at which the needle occurs. -/
def rfindIdx (hay needle : List Char) : Option Nat :=
  ((List.range (hay.length + 1)).filter
    (fun i => leadMatch needle (hay.drop i))).getLast?

/-- Data of one window as read by the matcher: lowercased name and class
name, desktop number, and the window's geometry (`none` when the
`window.geometry` read raises). -/
structure WinInfo where
  name : List Char
  class_name : List Char
  desktop : Nat
  geometry : Option Geometry
  deriving DecidableEq, Repr

/-- Name component of the `mapper` score in `WindowManager.__name_matcher`
(`windows.py` lines 902-908): 200 for an exact name match, otherwise
`150 - min(left, right)` for a substring match where `left` is the distance
from the left edge and `right` the distance from the right edge. -/
def WindowManager.namePoints (mtch : List Char) (w : WinInfo) : Int :=
  if w.name = mtch then 200
  else
    match findIdx w.name mtch, rfindIdx w.name mtch with
    | some l, some rf =>
      150 - min (l : Int)
        ((w.name.length : Int) - (mtch.length : Int) - (rf : Int))
    | _, _ => 0

/-- Name plus class-name components of the `mapper` score (`windows.py`
lines 902-909): a class-name substring match adds 100. -/
def WindowManager.basePoints (mtch : List Char) (w : WinInfo) : Int :=
  WindowManager.namePoints mtch w +
    (if (findIdx w.class_name mtch).isSome then 100 else 0)

/-- Embedding of the `mapper` closure of `WindowManager.__name_matcher`
(`windows.py` lines 901-924): name/class points, zero if reading the
geometry raises, then a 50-point same-desktop bonus and a 100-point
workarea-overlap bonus when the points are non-zero. -/
def WindowManager.mapperPoints (mtch : List Char) (cur : Nat) (wa : Geometry)
    (w : WinInfo) : Int :=
  let points := WindowManager.basePoints mtch w
  match w.geometry with
  | none => 0
  | some g =>
    if points ≠ 0 ∧ (w.desktop = cur ∨ w.desktop = ALL_DESKTOPS) then
      let p2 := points + 50
      if g.x < wa.x2 ∧ g.x2 > wa.x ∧ g.y < wa.y2 ∧ g.y2 > wa.y then p2 + 100
      else p2
    else points

/-- Decreasing-points order used to embed
`windows.sort(key=lambda win: win[1], reverse=True)`. -/
def scoreOrder (a b : WinInfo × Int) : Prop := b.2 ≤ a.2

instance : DecidableRel scoreOrder := fun a b => Int.decLe b.2 a.2

instance : IsTotal (WinInfo × Int) scoreOrder := ⟨fun a b => le_total b.2 a.2⟩

instance : IsTrans (WinInfo × Int) scoreOrder :=
  ⟨fun _ _ _ hab hbc => le_trans hbc hab⟩

/-- Embedding of `WindowManager.__name_matcher` (`windows.py` lines
895-928): score every window, sort descending by points (Python's sort is
stable; insertion sort with this order is the stable descending sort), and
keep the windows whose points are non-zero. -/
def WindowManager.name_matcher (mtch : List Char) (cur : Nat) (wa : Geometry)
    (ws : List WinInfo) : List WinInfo :=
  let scored := ws.map (fun w => (w, WindowManager.mapperPoints mtch cur wa w))
  let sorted := List.insertionSort scoreOrder scored
  (sorted.filter (fun p => p.2 != 0)).map Prod.fst

/-- Embedding of the `Window.state` property read (`windows.py` lines
187-194): a missing `_NET_WM_STATE` property reads as the empty tuple, a
present one as its value. -/
def Window.state (prop : Option (List Nat)) : List Nat := prop.getD []

/-- Embedding of the `Window.desktop` property read (`windows.py` lines
239-250): a missing `_NET_WM_DESKTOP` reads as desktop 0, a present one as
`desktop.value[0]`. -/
def Window.desktop (prop : Option (List Nat)) : Except Unit Nat :=
  match prop with
  | none => Except.ok 0
  | some [] => Except.error ()
  | some (v :: _) => Except.ok v

/-- Embedding of the `WindowManager.desktop` property read (`windows.py`
lines 727-732): `desktop.value[0]` with no missing-property guard, so an
absent `_NET_CURRENT_DESKTOP` raises (`None` has no `.value`). -/
def WindowManager.desktop (prop : Option (List Nat)) : Except Unit Nat :=
  match prop with
  | none => Except.error ()
  | some [] => Except.error ()
  | some (v :: _) => Except.ok v

/-- Embedding of `WindowManager.workarea_geometry` (`windows.py` lines
816-829): `_NET_WORKAREA` is read with no guard and its first four values
form the geometry; an absent property raises. -/
def WindowManager.workarea_geometry (prop : Option (List Int)) :
    Except Unit Geometry :=
  match prop with
  | none => Except.error ()
  | some (a :: b :: c :: d :: _) => Except.ok ⟨a, b, c, d⟩
  | some _ => Except.error ()

/-- Size value type (width and height), from the spec's data model. -/
structure Size where
  width : Int
  height : Int
  deriving DecidableEq, Repr

/-- Embedding of `WindowManager.desktop_size` (`windows.py` lines 745-750):
`_NET_DESKTOP_GEOMETRY` is read with no guard; an absent property raises. -/
def WindowManager.desktop_size (prop : Option (List Int)) : Except Unit Size :=
  match prop with
  | none => Except.error ()
  | some (a :: b :: _) => Except.ok ⟨a, b⟩
  | some _ => Except.error ()

end Pywo

/-- C1: for every window read through `Window.geometry`, the normalized
geometry includes decorations (width = raw width + left + right, height =
raw height + top + bottom); raw (x, y) is translated unless the manager is
in `DONT_TRANSLATE_COORDS` or it is Metacity and the window reports no
extents; and for managers in `ADJUST_GEOMETRY`, `extents.left`/`extents.top`
are subtracted from x/y after translation. -/
theorem C1_geometry_normalization (wm : Pywo.WMType) (raw : Pywo.RawGeo)
    (tr : Pywo.Position) (e : Pywo.Extents) :
    ((Pywo.Window.geometry wm raw tr e).width = raw.width + e.horizontal ∧
     (Pywo.Window.geometry wm raw tr e).height = raw.height + e.vertical) ∧
    (∀ l r t b : Int, e = ⟨some l, some r, some t, some b⟩ →
      (Pywo.Window.geometry wm raw tr e).width = raw.width + (l + r) ∧
      (Pywo.Window.geometry wm raw tr e).height = raw.height + (t + b)) ∧
    (wm ∈ Pywo.Hacks.DONT_TRANSLATE_COORDS ∨
       (wm = Pywo.WMType.metacity ∧ e.isUnknown) →
      (Pywo.Window.geometry wm raw tr e).x =
        raw.x - (if wm ∈ Pywo.Hacks.ADJUST_GEOMETRY then e.left.getD 0 else 0) ∧
      (Pywo.Window.geometry wm raw tr e).y =
        raw.y - (if wm ∈ Pywo.Hacks.ADJUST_GEOMETRY then e.top.getD 0 else 0)) ∧
    (¬ wm ∈ Pywo.Hacks.DONT_TRANSLATE_COORDS ∧
       ¬ (wm = Pywo.WMType.metacity ∧ e.isUnknown) →
      (Pywo.Window.geometry wm raw tr e).x =
        -tr.x - (if wm ∈ Pywo.Hacks.ADJUST_GEOMETRY then e.left.getD 0 else 0) ∧
      (Pywo.Window.geometry wm raw tr e).y =
        -tr.y - (if wm ∈ Pywo.Hacks.ADJUST_GEOMETRY then e.top.getD 0 else 0)) := by
  unfold Pywo.Window.geometry
  refine ⟨?_, ?_, ?_, ?_⟩
  · constructor <;> (split <;> (try split) <;> simp)
  · rintro l r t b rfl
    constructor <;>
      (split <;> (try split) <;>
        simp [Pywo.Extents.horizontal, Pywo.Extents.vertical])
  · intro h
    have hcond : ¬ (¬ wm ∈ Pywo.Hacks.DONT_TRANSLATE_COORDS ∧
        ¬ (wm = Pywo.WMType.metacity ∧ e.isUnknown)) := by
      rcases h with h | h
      · intro hc; exact hc.1 h
      · intro hc; exact hc.2 h
    rw [if_neg hcond]
    split <;> simp [sub_eq_add_neg]
  · intro h
    rw [if_pos h]
    split <;> simp [sub_eq_add_neg]

/-- Witness for C1 at concrete inputs: Compiz (adjusts geometry, does not
translate), raw geometry (10, 20, 300, 200), extents (2, 2, 24, 2). -/
theorem C1_geometry_normalization_witness :
    (Pywo.Window.geometry .compiz ⟨10, 20, 300, 200⟩ ⟨0, 0⟩
        ⟨some 2, some 2, some 24, some 2⟩).width = 300 + (2 + 2) ∧
    (Pywo.Window.geometry .compiz ⟨10, 20, 300, 200⟩ ⟨0, 0⟩
        ⟨some 2, some 2, some 24, some 2⟩).x = 10 - 2 := by
  have h := C1_geometry_normalization .compiz ⟨10, 20, 300, 200⟩ ⟨0, 0⟩
    ⟨some 2, some 2, some 24, some 2⟩
  refine ⟨(h.2.1 2 2 24 2 rfl).1, ?_⟩
  have hx := (h.2.2.1 (Or.inl (by decide))).1
  rw [hx]
  decide

/-- C7: for every window and window manager type, the `Extents` value
produced by `Window.extents` is never partially populated: either all four
of left, right, top, bottom are unset, or all four are concrete integers. -/
theorem C7_extents_all_or_none (wm : Pywo.WMType)
    (raw : Option (Int × Int × Int × Int)) (ob : Bool) (rootId : Nat)
    (t : Pywo.TreeInfo) :
    (Pywo.Window.extents wm raw ob rootId t).allNone = true ∨
    (Pywo.Window.extents wm raw ob rootId t).allSome = true := by
  unfold Pywo.Window.extents Pywo.Window.extentsCalc
  rcases raw with _ | ⟨l, r, tp, b⟩ <;>
    simp only [] <;>
    (repeat' split) <;>
    simp [Pywo.Extents.allNone, Pywo.Extents.allSome]

/-- C2: the width path of `Window.set_geometry` follows the claimed hint
pipeline for all inputs and reproduces the spec's examples (increment 10,
base absent with current width 40, min 20: target 33 gives 30 and target 17
gives 20), but the height path diverges: its add-back guard re-tests
`height_inc` instead of `min_height`, so with increment 10, declared base 8
and no minimum hint, a target client height of 5 quantizes to -2 and is
bumped to 8, while the claimed pipeline (and the width path on the same
numbers) yields -2. -/
theorem C2_hint_quantization :
    (∀ (h : Pywo.SizeHints) (cur w : Int),
      Pywo.Window.applyWidthHints h cur w =
        Pywo.specHintPipeline h.max_width h.min_width h.width_inc
          h.base_width cur w) ∧
    Pywo.Window.applyWidthHints ⟨false, 0, 0, 20, 20, 10, 10, 0, 0⟩ 40 33 = 30 ∧
    Pywo.Window.applyWidthHints ⟨false, 0, 0, 20, 20, 10, 10, 0, 0⟩ 40 17 = 20 ∧
    Pywo.Window.applyHeightHints ⟨false, 0, 0, 0, 0, 10, 10, 8, 8⟩ 0 5 = 8 ∧
    Pywo.Window.applyWidthHints ⟨false, 0, 0, 0, 0, 10, 10, 8, 8⟩ 0 5 = -2 ∧
    Pywo.specHintPipeline 0 0 10 8 0 5 = -2 := by
  refine ⟨fun h cur w => rfl, ?_, ?_, ?_, ?_, ?_⟩ <;> decide

/-- C3: whenever hint processing changes the client size, `set_geometry`
redistributes the position delta proportionally to the gravity fractions
(`x += (target_width - final_width) * gravity.x`, similarly for y), so
gravity 0 keeps that edge fixed, gravity 1 keeps the opposite edge fixed and
gravity 1/2 splits the delta evenly, and the configure request carries
exactly this x, y and the final client width and height. -/
theorem C3_gravity_redistribution (e : Pywo.Extents) (cur : Pywo.RawGeo)
    (hints : Option Pywo.SizeHints) (g : Pywo.Geometry) (grav : Pywo.Gravity) :
    let tw : Int := g.width - e.horizontal
    let th : Int := g.height - e.vertical
    let fw : Int := match hints with
      | some h => Pywo.Window.applyWidthHints h cur.width tw
      | none => tw
    let fh : Int := match hints with
      | some h => Pywo.Window.applyHeightHints h cur.height th
      | none => th
    let bx : ℚ := match hints with
      | some h =>
        if h.win_gravity_static then (g.x : ℚ) + ((e.left.getD 0 : Int) : ℚ)
        else (g.x : ℚ)
      | none => (g.x : ℚ)
    let yb : ℚ := match hints with
      | some h =>
        if h.win_gravity_static then (g.y : ℚ) + ((e.top.getD 0 : Int) : ℚ)
        else (g.y : ℚ)
      | none => (g.y : ℚ)
    (Pywo.Window.set_geometry e cur hints g grav =
        ⟨bx + ((tw - fw : Int) : ℚ) * grav.x,
         yb + ((th - fh : Int) : ℚ) * grav.y, fw, fh⟩) ∧
    (Pywo.Window.set_geometry e cur hints g ⟨0, 0⟩).x = bx ∧
    ((Pywo.Window.set_geometry e cur hints g ⟨1, 1⟩).x + (fw : ℚ) =
      bx + (tw : ℚ)) ∧
    (Pywo.Window.set_geometry e cur hints g ⟨1/2, 1/2⟩).x =
      bx + ((tw - fw : Int) : ℚ) / 2 := by
  intro tw th fw fh bx yb
  have key : ∀ gr : Pywo.Gravity,
      Pywo.Window.set_geometry e cur hints g gr =
        ⟨bx + ((tw - fw : Int) : ℚ) * gr.x,
         yb + ((th - fh : Int) : ℚ) * gr.y, fw, fh⟩ := by
    intro gr
    unfold Pywo.Window.set_geometry
    rcases hints with _ | h
    · simp only [tw, th, fw, fh, bx, yb]
      rw [if_neg (by simp)]
      simp
    · simp only [tw, th, fw, fh, bx, yb]
      by_cases hc :
          (Pywo.Window.applyWidthHints h cur.width (g.width - e.horizontal),
           Pywo.Window.applyHeightHints h cur.height (g.height - e.vertical)) ≠
          (g.width - e.horizontal, g.height - e.vertical)
      · rw [if_pos hc]
        by_cases hs : h.win_gravity_static = true <;> simp [hs]
      · rw [if_neg hc]
        rw [not_ne_iff, Prod.mk.injEq] at hc
        rw [hc.1, hc.2]
        simp
        constructor <;> split <;> rfl
  refine ⟨key grav, ?_, ?_, ?_⟩
  · rw [key ⟨0, 0⟩]; simp
  · rw [key ⟨1, 1⟩]; simp; ring
  · rw [key ⟨1/2, 1/2⟩]; simp; ring

/-- C4 counterexample: a CreateNotify-style event carrying both a parent
field (id 7) and a window field (id 5), dispatched against a table whose
only entry for the event type is keyed on window 5 (root is 1).  The claim
says only handlers under the parent field plus root handlers may be
invoked, i.e. none here; the code falls through to the window field and
invokes handler 0, which is keyed on a window id other than the parent and
the root. -/
theorem C4_counterexample :
    Pywo.EventDispatcher.dispatchSelected [(12, [(5, [0])])] 1
        ⟨12, some 7, none, some 5⟩ = [0] ∧
    Pywo.claimC4Selected [(12, [(5, [0])])] 1 ⟨12, some 7, none, some 5⟩ = [] := by
  decide

/-- C4 amended: a handler is invoked for an event exactly when its type has
an entry and the handler is registered either under the addressing key the
dispatcher chooses — the first field among parent, event-source,
target-window that is present on the event and has an entry for the event
type — or under the root window; handlers registered under any other window
id are never invoked. -/
theorem C4_dispatch_selection (handlers : Pywo.HandlersMap) (root : Nat)
    (e : Pywo.XEvent) (hid : Nat) :
    hid ∈ Pywo.EventDispatcher.dispatchSelected handlers root e ↔
      ∃ th, Pywo.lookupA handlers e.type = some th ∧
        ((∃ w, Pywo.EventDispatcher.chosenKey th e = some w ∧
            hid ∈ (Pywo.lookupA th w).getD []) ∨
         hid ∈ (Pywo.lookupA th root).getD []) := by
  unfold Pywo.EventDispatcher.dispatchSelected Pywo.EventDispatcher.chosenKey
  rcases hth : Pywo.lookupA handlers e.type with _ | th
  · simp
  · simp only [List.mem_append]
    constructor
    · rintro (hmem | hmem)
      · refine ⟨th, rfl, ?_⟩
        left
        rcases hp : e.parent with _ | p
        · rcases hev : e.event with _ | w
          · rcases hw : e.window with _ | w
            · simp [hp, hev, hw] at hmem
            · simp [hp, hev, hw] at hmem ⊢
              rcases hk : Pywo.lookupA th w with _ | hs
              · simp [hk] at hmem
              · simp [hk] at hmem ⊢; exact hmem
          · simp [hp, hev] at hmem ⊢
            rcases hk : Pywo.lookupA th w with _ | hs
            · rcases hw : e.window with _ | w2
              · simp [hk, hw] at hmem
              · simp [hk, hw] at hmem ⊢
                rcases hk2 : Pywo.lookupA th w2 with _ | hs2
                · simp [hk2] at hmem
                · simp [hk2] at hmem ⊢; exact hmem
            · simp [hk] at hmem ⊢; exact hmem
        · simp [hp] at hmem ⊢
          rcases hk : Pywo.lookupA th p with _ | hs
          · simp [hk] at hmem ⊢
            rcases hev : e.event with _ | w
            · rcases hw : e.window with _ | w2
              · simp [hev, hw] at hmem
              · simp [hev, hw] at hmem ⊢
                rcases hk2 : Pywo.lookupA th w2 with _ | hs2
                · simp [hk2] at hmem
                · simp [hk2] at hmem ⊢; exact hmem
            · simp [hev] at hmem ⊢
              rcases hk2 : Pywo.lookupA th w with _ | hs2
              · rcases hw : e.window with _ | w2
                · simp [hk2, hw] at hmem
                · simp [hk2, hw] at hmem ⊢
                  rcases hk3 : Pywo.lookupA th w2 with _ | hs3
                  · simp [hk3] at hmem
                  · simp [hk3] at hmem ⊢; exact hmem
              · simp [hk2] at hmem ⊢; exact hmem
          · simp [hk] at hmem ⊢; exact hmem
      · exact ⟨th, rfl, Or.inr hmem⟩
    · rintro ⟨th2, hth2, hsel⟩
      have hEq : th = th2 := Option.some_inj.mp hth2
      subst hEq
      rcases hsel with ⟨w, hkey, hmem⟩ | hmem
      · left
        rcases hp : e.parent with _ | p
        · rcases hev : e.event with _ | wv
          · rcases hw : e.window with _ | w2
            · simp [hp, hev, hw] at hkey
            · simp [hp, hev, hw] at hkey ⊢
              rcases hk : Pywo.lookupA th w2 with _ | hs
              · simp [hk] at hkey
              · simp [hk] at hkey ⊢
                rcases hkey with ⟨rfl⟩
                simp [hk] at hmem
                exact hmem
          · simp [hp, hev] at hkey ⊢
            rcases hk : Pywo.lookupA th wv with _ | hs
            · simp [hk] at hkey ⊢
              rcases hw : e.window with _ | w2
              · simp [hw] at hkey
              · simp [hw] at hkey ⊢
                rcases hk2 : Pywo.lookupA th w2 with _ | hs2
                · simp [hk2] at hkey
                · simp [hk2] at hkey ⊢
                  rcases hkey with ⟨rfl⟩
                  simp [hk2] at hmem
                  exact hmem
            · simp [hk] at hkey ⊢
              rcases hkey with ⟨rfl⟩
              simp [hk] at hmem
              exact hmem
        · simp [hp] at hkey ⊢
          rcases hk : Pywo.lookupA th p with _ | hs
          · simp [hk] at hkey ⊢
            rcases hev : e.event with _ | wv
            · simp [hev] at hkey ⊢
              rcases hw : e.window with _ | w2
              · simp [hw] at hkey
              · simp [hw] at hkey ⊢
                rcases hk2 : Pywo.lookupA th w2 with _ | hs2
                · simp [hk2] at hkey
                · simp [hk2] at hkey ⊢
                  rcases hkey with ⟨rfl⟩
                  simp [hk2] at hmem
                  exact hmem
            · simp [hev] at hkey ⊢
              rcases hk2 : Pywo.lookupA th wv with _ | hs2
              · simp [hk2] at hkey ⊢
                rcases hw : e.window with _ | w2
                · simp [hw] at hkey
                · simp [hw] at hkey ⊢
                  rcases hk3 : Pywo.lookupA th w2 with _ | hs3
                  · simp [hk3] at hkey
                  · simp [hk3] at hkey ⊢
                    rcases hkey with ⟨rfl⟩
                    simp [hk3] at hmem
                    exact hmem
              · simp [hk2] at hkey ⊢
                rcases hkey with ⟨rfl⟩
                simp [hk2] at hmem
                exact hmem
          · simp [hk] at hkey ⊢
            rcases hkey with ⟨rfl⟩
            simp [hk] at hmem
            exact hmem
      · right; exact hmem

/-- C5: the handler-invocation loop has no exception isolation.  With two
selected handlers of which the first raises, only one handler is invoked
and the error propagates uncaught (so it skips the remaining handler and,
since `run` has no handler either, terminates the dispatch thread); with no
raising handler both run and no error escapes. -/
theorem C5_exception_not_isolated :
    Pywo.EventDispatcher.invokeHandlers
        [fun _ => Except.error "boom", fun _ => Except.ok ()]
        ⟨12, none, none, some 5⟩ = (1, some "boom") ∧
    Pywo.EventDispatcher.invokeHandlers
        [fun _ => Except.ok (), fun _ => Except.ok ()]
        ⟨12, none, none, some 5⟩ = (2, none) := by
  constructor <;> rfl

/-- C6: registering a handler makes the loop condition true, and
unregistering one handler while another window's handler remains keeps it
true; but after the last handler is removed through
`unregister(window, handler)` the `discard` leaves an empty set keyed under
the window, the outer dict stays non-empty, and the `while self.__handlers`
loop never detects an empty handler set — it keeps running forever instead
of stopping within one poll interval (100 ms). -/
theorem C6_loop_misses_empty_handler_set :
    Pywo.EventDispatcher.loopContinues
        (Pywo.EventDispatcher.register [] 7 [22] 3) = true ∧
    (Pywo.EventDispatcher.hasAnyHandler
        (Pywo.EventDispatcher.unregister
          (Pywo.EventDispatcher.register
            (Pywo.EventDispatcher.register [] 7 [22] 3) 9 [22] 4)
          7 (some 3)) = true ∧
     Pywo.EventDispatcher.loopContinues
        (Pywo.EventDispatcher.unregister
          (Pywo.EventDispatcher.register
            (Pywo.EventDispatcher.register [] 7 [22] 3) 9 [22] 4)
          7 (some 3)) = true) ∧
    (Pywo.EventDispatcher.hasAnyHandler
        (Pywo.EventDispatcher.unregister
          (Pywo.EventDispatcher.register [] 7 [22] 3) 7 (some 3)) = false ∧
     Pywo.EventDispatcher.loopContinues
        (Pywo.EventDispatcher.unregister
          (Pywo.EventDispatcher.register [] 7 [22] 3) 7 (some 3)) = true) ∧
    (Pywo.EventDispatcher.hasAnyHandler
        (Pywo.EventDispatcher.unregister
          (Pywo.EventDispatcher.register [] 7 [22] 3) 7 none) = false ∧
     Pywo.EventDispatcher.loopContinues
        (Pywo.EventDispatcher.unregister
          (Pywo.EventDispatcher.register [] 7 [22] 3) 7 none) = false) ∧
    Pywo.EventDispatcher.POLL_INTERVAL_MS = 100 := by
  decide

/-- Helper: the selection step always yields a value. -/
theorem selStep_isSome (acc : Option (Int × Pywo.Geometry))
    (p : Int × Pywo.Geometry) : (Pywo.selStep acc p).isSome := by
  rcases acc with _ | q
  · rfl
  · by_cases hle : q.1 ≤ p.1 <;> simp [Pywo.selStep, hle]

/-- Helper: folding the selection step over any list preserves having a
value. -/
theorem selFold_isSome (l : List (Int × Pywo.Geometry))
    (acc : Option (Int × Pywo.Geometry)) (hacc : acc.isSome) :
    (l.foldl Pywo.selStep acc).isSome := by
  induction l generalizing acc with
  | nil => exact hacc
  | cons x xs ih => exact ih (Pywo.selStep acc x) (selStep_isSome acc x)

/-- Helper: whatever the fold of the selection step returns is an element of
the list (or the starting accumulator) and its area bounds every list
element's area and the accumulator's area. -/
theorem selFold_spec (l : List (Int × Pywo.Geometry))
    (acc : Option (Int × Pywo.Geometry)) (p : Int × Pywo.Geometry)
    (h : l.foldl Pywo.selStep acc = some p) :
    (p ∈ l ∨ acc = some p) ∧ (∀ q ∈ l, q.1 ≤ p.1) ∧
      (∀ r, acc = some r → r.1 ≤ p.1) := by
  induction l generalizing acc with
  | nil =>
    refine ⟨Or.inr h, by simp, ?_⟩
    intro r hr
    have hrp : r = p := Option.some_inj.mp (hr.symm.trans h)
    rw [hrp]
  | cons x xs ih =>
    have h2 : xs.foldl Pywo.selStep (Pywo.selStep acc x) = some p := h
    obtain ⟨hmem, hbound, hacc2⟩ := ih (Pywo.selStep acc x) h2
    have hx : x.1 ≤ p.1 := by
      rcases acc with _ | a
      · exact hacc2 x rfl
      · by_cases hle : a.1 ≤ x.1
        · exact hacc2 x (by simp [Pywo.selStep, hle])
        · exact le_trans (le_of_not_le hle) (hacc2 a (by simp [Pywo.selStep, hle]))
    have hm : p ∈ x :: xs ∨ acc = some p := by
      rcases hmem with hp | hp
      · exact Or.inl (List.mem_cons_of_mem x hp)
      · rcases acc with _ | a
        · have hxp : x = p := Option.some_inj.mp hp
          exact Or.inl (hxp ▸ List.mem_cons_self x xs)
        · by_cases hle : a.1 ≤ x.1
          · rw [show Pywo.selStep (some a) x = some x by
                simp [Pywo.selStep, hle]] at hp
            have hxp : x = p := Option.some_inj.mp hp
            exact Or.inl (hxp ▸ List.mem_cons_self x xs)
          · rw [show Pywo.selStep (some a) x = some a by
                simp [Pywo.selStep, hle]] at hp
            exact Or.inr hp
    have ha : ∀ r, acc = some r → r.1 ≤ p.1 := by
      intro r hr
      subst hr
      by_cases hle : r.1 ≤ x.1
      · exact le_trans hle hx
      · exact hacc2 r (by simp [Pywo.selStep, hle])
    refine ⟨hm, ?_, ha⟩
    intro q hq
    rcases List.mem_cons.mp hq with rfl | hq2
    · exact hx
    · exact hbound q hq2

/-- Helper: an intersection result is contained in the right operand. -/
theorem inter_subrect (a b g : Pywo.Geometry)
    (h : Pywo.Geometry.inter a b = some g) :
    b.x ≤ g.x ∧ g.x2 ≤ b.x2 ∧ b.y ≤ g.y ∧ g.y2 ≤ b.y2 := by
  simp only [Pywo.Geometry.inter] at h
  split at h
  · cases h
    unfold Pywo.Geometry.x2 Pywo.Geometry.y2
    simp only []
    omega
  · cases h

/-- Helper: a non-empty list always yields a largest element. -/
theorem selectLargest_isSome (l : List (Int × Pywo.Geometry)) (hne : l ≠ []) :
    (Pywo.selectLargest l).isSome := by
  rcases l with _ | ⟨x, xs⟩
  · exact absurd rfl hne
  · unfold Pywo.selectLargest
    rw [List.foldl_cons]
    exact selFold_isSome xs (Pywo.selStep none x) (selStep_isSome none x)

/-- Helper: the largest element is in the list and bounds every element. -/
theorem selectLargest_spec (l : List (Int × Pywo.Geometry))
    (p : Int × Pywo.Geometry) (h : Pywo.selectLargest l = some p) :
    p ∈ l ∧ ∀ q ∈ l, q.1 ≤ p.1 := by
  obtain ⟨hm, hb, _⟩ := selFold_spec l none p h
  rcases hm with hm | hm
  · exact ⟨hm, hb⟩
  · cases hm

/-- C8: for every rectangle with a non-empty intersection with at least one
screen, `nearest_screen_geometry` returns some screen's intersection with
the workarea, where that screen is in the list, intersects the rectangle,
and its intersection area is at least that of every other intersecting
screen; and whatever geometry is returned is a sub-rectangle of the
workarea geometry. -/
theorem C8_nearest_screen_geometry (screens : List Pywo.Geometry)
    (workarea rect : Pywo.Geometry)
    (h : ∃ s ∈ screens, (Pywo.Geometry.inter s rect).isSome) :
    (∃ s ∈ screens, ∃ i, Pywo.Geometry.inter s rect = some i ∧
      Pywo.WindowManager.nearest_screen_geometry screens workarea rect =
        Pywo.Geometry.inter s workarea ∧
      ∀ s2 ∈ screens, ∀ i2, Pywo.Geometry.inter s2 rect = some i2 →
        i2.area ≤ i.area) ∧
    (∀ g, Pywo.WindowManager.nearest_screen_geometry screens workarea rect =
        some g →
      workarea.x ≤ g.x ∧ g.x2 ≤ workarea.x2 ∧
      workarea.y ≤ g.y ∧ g.y2 ≤ workarea.y2) := by
  obtain ⟨s0, hs0, hsome⟩ := h
  obtain ⟨i0, hi0⟩ := Option.isSome_iff_exists.mp hsome
  have hmem0 : (i0.area, s0) ∈ screens.filterMap
      (fun screen => (Pywo.Geometry.inter screen rect).map
        (fun i => (i.area, screen))) :=
    List.mem_filterMap.mpr ⟨s0, hs0, by rw [hi0]; rfl⟩
  obtain ⟨p, hp⟩ := Option.isSome_iff_exists.mp
    (selectLargest_isSome _ (List.ne_nil_of_mem hmem0))
  obtain ⟨hpmem, hpmax⟩ := selectLargest_spec _ p hp
  obtain ⟨s1, hs1, hs1eq⟩ := List.mem_filterMap.mp hpmem
  obtain ⟨i1, hi1, hi1eq⟩ := Option.map_eq_some'.mp hs1eq
  have hres : Pywo.WindowManager.nearest_screen_geometry screens workarea rect
      = Pywo.Geometry.inter s1 workarea := by
    simp only [Pywo.WindowManager.nearest_screen_geometry]
    rw [hp, ← hi1eq]
  constructor
  · refine ⟨s1, hs1, i1, hi1, hres, ?_⟩
    intro s2 hs2 i2 hi2
    have hm2 : (i2.area, s2) ∈ screens.filterMap
        (fun screen => (Pywo.Geometry.inter screen rect).map
          (fun i => (i.area, screen))) :=
      List.mem_filterMap.mpr ⟨s2, hs2, by rw [hi2]; rfl⟩
    have hle := hpmax _ hm2
    rw [← hi1eq] at hle
    exact hle
  · intro g hg
    rw [hres] at hg
    exact inter_subrect _ _ _ hg

/-- Witness for C8: two side-by-side 100x100 screens, workarea
(5, 5, 190, 90), rectangle (60, 10, 100, 50): the right screen wins (its
intersection area 3000 beats 2000) and the result (100, 5, 95, 90) is
contained in the workarea. -/
theorem C8_nearest_screen_geometry_witness :
    Pywo.WindowManager.nearest_screen_geometry
        [⟨0, 0, 100, 100⟩, ⟨100, 0, 100, 100⟩] ⟨5, 5, 190, 90⟩
        ⟨60, 10, 100, 50⟩ = some ⟨100, 5, 95, 90⟩ ∧
    ((⟨5, 5, 190, 90⟩ : Pywo.Geometry).x ≤
        (⟨100, 5, 95, 90⟩ : Pywo.Geometry).x ∧
     (⟨100, 5, 95, 90⟩ : Pywo.Geometry).x2 ≤
        (⟨5, 5, 190, 90⟩ : Pywo.Geometry).x2 ∧
     (⟨5, 5, 190, 90⟩ : Pywo.Geometry).y ≤
        (⟨100, 5, 95, 90⟩ : Pywo.Geometry).y ∧
     (⟨100, 5, 95, 90⟩ : Pywo.Geometry).y2 ≤
        (⟨5, 5, 190, 90⟩ : Pywo.Geometry).y2) :=
  ⟨by decide,
   (C8_nearest_screen_geometry [⟨0, 0, 100, 100⟩, ⟨100, 0, 100, 100⟩]
      ⟨5, 5, 190, 90⟩ ⟨60, 10, 100, 50⟩
      (by decide)).2 ⟨100, 5, 95, 90⟩ (by decide)⟩

/-- C10 counterexample: under Blackbox (a `calculate_extents` manager) a
missing `_NET_FRAME_EXTENTS` property does not read as unknown/all-None:
with the window framed at offset (2, 3) inside a 14x16 parent frame (id 5,
root id 1), the extents are reconstructed as concrete integers. -/
theorem C10_counterexample :
    Pywo.Window.extents .blackbox none false 1
        ⟨⟨2, 3, 10, 10, 0⟩, 5, ⟨0, 0, 14, 16, 0⟩, 1, ⟨0, 0, 0, 0, 0⟩⟩ =
      ⟨some 2, some 2, some 3, some 3⟩ ∧
    (Pywo.Window.extents .blackbox none false 1
        ⟨⟨2, 3, 10, 10, 0⟩, 5, ⟨0, 0, 14, 16, 0⟩, 1, ⟨0, 0, 0, 0, 0⟩⟩).allNone
      = false := by
  decide

/-- C10 amended: missing optional per-window properties never raise and
read as their documented defaults — state reads as the empty set, desktop
as 0, and extents as unknown (all-None) except under `calculate_extents`
managers, which reconstruct extents from the frame tree and read unknown
only when the frame chain reaches the root; properties assumed always
present (current desktop, workarea, desktop geometry) raise when absent. -/
theorem C10_missing_property_defaults :
    Pywo.Window.state none = [] ∧
    Pywo.Window.desktop none = Except.ok 0 ∧
    (∀ (wm : Pywo.WMType) (ob : Bool) (rootId : Nat) (t : Pywo.TreeInfo),
      ¬ wm ∈ Pywo.Hacks.CALCULATE_EXTENTS →
      Pywo.Window.extents wm none ob rootId t = ⟨none, none, none, none⟩) ∧
    (∀ (wm : Pywo.WMType) (ob : Bool) (rootId : Nat) (t : Pywo.TreeInfo),
      wm ∈ Pywo.Hacks.CALCULATE_EXTENTS → t.parentId = rootId →
      Pywo.Window.extents wm none ob rootId t = ⟨none, none, none, none⟩) ∧
    Pywo.WindowManager.desktop none = Except.error () ∧
    Pywo.WindowManager.workarea_geometry none = Except.error () ∧
    Pywo.WindowManager.desktop_size none = Except.error () := by
  refine ⟨rfl, rfl, ?_, ?_, rfl, rfl, rfl⟩
  · intro wm ob rootId t hwm
    unfold Pywo.Window.extents
    rw [if_neg hwm]
  · intro wm ob rootId t hwm hroot
    unfold Pywo.Window.extents
    rw [if_pos hwm]
    unfold Pywo.Window.extentsCalc
    rw [if_pos hroot]

/-- Witness for C10 at concrete inputs: Metacity (no calculate hack) and
Blackbox whose frame chain reaches the root directly both read missing
extents as all-None. -/
theorem C10_missing_property_defaults_witness :
    Pywo.Window.extents .metacity none false 1
        ⟨⟨0, 0, 0, 0, 0⟩, 5, ⟨0, 0, 0, 0, 0⟩, 1, ⟨0, 0, 0, 0, 0⟩⟩ =
      ⟨none, none, none, none⟩ ∧
    Pywo.Window.extents .blackbox none false 1
        ⟨⟨0, 0, 0, 0, 0⟩, 1, ⟨0, 0, 0, 0, 0⟩, 1, ⟨0, 0, 0, 0, 0⟩⟩ =
      ⟨none, none, none, none⟩ :=
  ⟨C10_missing_property_defaults.2.2.1 .metacity false 1
      ⟨⟨0, 0, 0, 0, 0⟩, 5, ⟨0, 0, 0, 0, 0⟩, 1, ⟨0, 0, 0, 0, 0⟩⟩ (by decide),
   C10_missing_property_defaults.2.2.2.1 .blackbox false 1
      ⟨⟨0, 0, 0, 0, 0⟩, 1, ⟨0, 0, 0, 0, 0⟩, 1, ⟨0, 0, 0, 0, 0⟩⟩ (by decide) rfl⟩

/-- Helper: a lead match needs the needle to fit in the hay. -/
theorem leadMatch_length (n h : List Char) (hm : Pywo.leadMatch n h = true) :
    n.length ≤ h.length := by
  induction n generalizing h with
  | nil => simp
  | cons a as ih =>
    rcases h with _ | ⟨b, bs⟩
    · exact absurd hm (by simp [Pywo.leadMatch])
    · simp only [Pywo.leadMatch, Bool.and_eq_true] at hm
      have := ih bs hm.2
      simp only [List.length_cons]
      omega

/-- Helper: an index reported by `rfindIdx` is an occurrence within
bounds. -/
theorem rfindIdx_spec (hay needle : List Char) (rf : Nat)
    (h : Pywo.rfindIdx hay needle = some rf) :
    Pywo.leadMatch needle (hay.drop rf) = true ∧ rf ≤ hay.length := by
  unfold Pywo.rfindIdx at h
  have hmem : rf ∈ (List.range (hay.length + 1)).filter
      (fun i => Pywo.leadMatch needle (hay.drop i)) :=
    List.mem_of_mem_getLast? h
  obtain ⟨hmemr, hpred⟩ := List.mem_filter.mp hmem
  rw [List.mem_range] at hmemr
  exact ⟨hpred, by omega⟩

/-- Helper: when the needle occurs somewhere, `rfindIdx` yields a last
occurrence. -/
theorem rfindIdx_isSome_of_findIdx (hay needle : List Char) (l : Nat)
    (h : Pywo.findIdx hay needle = some l) :
    (Pywo.rfindIdx hay needle).isSome := by
  unfold Pywo.findIdx at h
  have h1 := List.find?_some h
  have h2 := List.mem_of_find?_eq_some h
  unfold Pywo.rfindIdx
  rw [List.getLast?_isSome]
  intro hcontra
  have hmem : l ∈ (List.range (hay.length + 1)).filter
      (fun i => Pywo.leadMatch needle (hay.drop i)) :=
    List.mem_filter.mpr ⟨h2, h1⟩
  rw [hcontra] at hmem
  cases hmem

/-- Helper: the distance-to-right-edge term of a substring score is
non-negative, hence the score component `min left right` is non-negative. -/
theorem substr_min_nonneg (mtch name : List Char) (l rf : Nat)
    (hrf : Pywo.rfindIdx name mtch = some rf) :
    0 ≤ min (l : Int)
      ((name.length : Int) - (mtch.length : Int) - (rf : Int)) := by
  obtain ⟨hm, hle⟩ := rfindIdx_spec name mtch rf hrf
  have hlen := leadMatch_length mtch (name.drop rf) hm
  rw [List.length_drop] at hlen
  omega

/-- Helper: with readable geometry and no desktop match the mapper score is
the base score. -/
theorem mapperPoints_no_bonus (mtch : List Char) (cur : Nat)
    (wa : Pywo.Geometry) (w : Pywo.WinInfo) (hg : w.geometry.isSome)
    (hd1 : w.desktop ≠ cur) (hd2 : w.desktop ≠ Pywo.ALL_DESKTOPS) :
    Pywo.WindowManager.mapperPoints mtch cur wa w =
      Pywo.WindowManager.basePoints mtch w := by
  obtain ⟨g, hgeq⟩ := Option.isSome_iff_exists.mp hg
  have hcond : ¬ (Pywo.WindowManager.basePoints mtch w ≠ 0 ∧
      (w.desktop = cur ∨ w.desktop = Pywo.ALL_DESKTOPS)) := by
    rintro ⟨-, hd | hd⟩
    · exact hd1 hd
    · exact hd2 hd
  simp only [Pywo.WindowManager.mapperPoints, hgeq]
  rw [if_neg hcond]

/-- Helper: base score of an exact name match with no class match. -/
theorem basePoints_exact (mtch : List Char) (w : Pywo.WinInfo)
    (hn : w.name = mtch) (hc : Pywo.findIdx w.class_name mtch = none) :
    Pywo.WindowManager.basePoints mtch w = 200 := by
  simp [Pywo.WindowManager.basePoints, Pywo.WindowManager.namePoints, hn, hc]

/-- Helper: base score of a mere substring match with no class match. -/
theorem basePoints_substr (mtch : List Char) (w : Pywo.WinInfo) (l rf : Nat)
    (hn : w.name ≠ mtch) (hf : Pywo.findIdx w.name mtch = some l)
    (hrf : Pywo.rfindIdx w.name mtch = some rf)
    (hc : Pywo.findIdx w.class_name mtch = none) :
    Pywo.WindowManager.basePoints mtch w =
      150 - min (l : Int)
        ((w.name.length : Int) - (mtch.length : Int) - (rf : Int)) := by
  simp [Pywo.WindowManager.basePoints, Pywo.WindowManager.namePoints, hn, hf,
    hrf, hc]

/-- Helper: base score of a class-name-only match. -/
theorem basePoints_classonly (mtch : List Char) (w : Pywo.WinInfo)
    (hn : w.name ≠ mtch) (hf : Pywo.findIdx w.name mtch = none)
    (hc : (Pywo.findIdx w.class_name mtch).isSome) :
    Pywo.WindowManager.basePoints mtch w = 100 := by
  simp [Pywo.WindowManager.basePoints, Pywo.WindowManager.namePoints, hn, hf,
    hc]

set_option maxRecDepth 40000 in
/-- C9 counterexample: the claim's ordering and positivity fail as stated.
An exact-name window on another desktop scores 200 while a window whose
name merely contains the query but which earns the class-name, same-desktop
and workarea-overlap bonuses scores 400, so the exact match does not score
strictly higher; and a window whose only occurrence of the query sits 151
characters from both edges of its name scores -1 — non-positive — yet is
still returned by the matcher. -/
theorem C9_counterexample :
    ¬ (Pywo.WindowManager.mapperPoints ['a'] 0 ⟨0, 0, 100, 100⟩
          ⟨['a'], ['x'], 1, some ⟨0, 0, 10, 10⟩⟩ >
       Pywo.WindowManager.mapperPoints ['a'] 0 ⟨0, 0, 100, 100⟩
          ⟨['b', 'a'], ['a'], 0, some ⟨0, 0, 10, 10⟩⟩) ∧
    Pywo.WindowManager.mapperPoints ['a'] 0 ⟨0, 0, 100, 100⟩
        ⟨List.replicate 151 'b' ++ 'a' :: List.replicate 151 'b', [], 1,
         some ⟨0, 0, 10, 10⟩⟩ = -1 ∧
    Pywo.WindowManager.name_matcher ['a'] 0 ⟨0, 0, 100, 100⟩
        [⟨List.replicate 151 'b' ++ 'a' :: List.replicate 151 'b', [], 1,
          some ⟨0, 0, 10, 10⟩⟩] =
      [⟨List.replicate 151 'b' ++ 'a' :: List.replicate 151 'b', [], 1,
        some ⟨0, 0, 10, 10⟩⟩] := by
  decide

/-- C9 amended: comparing windows with equal bonus profiles (no class
match, readable geometry, not on the current desktop and not sticky), an
exact-name window scores strictly higher than a mere-substring window, and
a mere-substring window scores strictly higher than a class-name-only
window provided the query occurs within 49 characters of the nearer edge of
the name (`min(left, right) < 50`); the matcher returns exactly the windows
with non-zero (not necessarily positive) score, in descending score
order. -/
theorem C9_matcher_scoring (mtch : List Char) (cur : Nat) (wa : Pywo.Geometry)
    (ws : List Pywo.WinInfo) :
    (∀ w1 w2 : Pywo.WinInfo,
      w1.name = mtch → Pywo.findIdx w1.class_name mtch = none →
      w1.geometry.isSome → w1.desktop ≠ cur → w1.desktop ≠ Pywo.ALL_DESKTOPS →
      w2.name ≠ mtch → (Pywo.findIdx w2.name mtch).isSome →
      Pywo.findIdx w2.class_name mtch = none →
      w2.geometry.isSome → w2.desktop ≠ cur → w2.desktop ≠ Pywo.ALL_DESKTOPS →
      Pywo.WindowManager.mapperPoints mtch cur wa w1 >
        Pywo.WindowManager.mapperPoints mtch cur wa w2) ∧
    (∀ w2 w3 : Pywo.WinInfo, ∀ l rf : Nat,
      w2.name ≠ mtch → Pywo.findIdx w2.name mtch = some l →
      Pywo.rfindIdx w2.name mtch = some rf →
      Pywo.findIdx w2.class_name mtch = none →
      w2.geometry.isSome → w2.desktop ≠ cur → w2.desktop ≠ Pywo.ALL_DESKTOPS →
      min (l : Int)
          ((w2.name.length : Int) - (mtch.length : Int) - (rf : Int)) < 50 →
      w3.name ≠ mtch → Pywo.findIdx w3.name mtch = none →
      (Pywo.findIdx w3.class_name mtch).isSome →
      w3.geometry.isSome → w3.desktop ≠ cur → w3.desktop ≠ Pywo.ALL_DESKTOPS →
      Pywo.WindowManager.mapperPoints mtch cur wa w2 >
        Pywo.WindowManager.mapperPoints mtch cur wa w3) ∧
    List.Pairwise
      (fun a b => Pywo.WindowManager.mapperPoints mtch cur wa b ≤
        Pywo.WindowManager.mapperPoints mtch cur wa a)
      (Pywo.WindowManager.name_matcher mtch cur wa ws) ∧
    (∀ w : Pywo.WinInfo,
      w ∈ Pywo.WindowManager.name_matcher mtch cur wa ws ↔
        (w ∈ ws ∧ Pywo.WindowManager.mapperPoints mtch cur wa w ≠ 0)) := by
  refine ⟨?_, ?_, ?_, ?_⟩
  · intro w1 w2 hn1 hc1 hg1 hd11 hd12 hn2 hf2 hc2 hg2 hd21 hd22
    obtain ⟨l, hl⟩ := Option.isSome_iff_exists.mp hf2
    obtain ⟨rf, hrf⟩ := Option.isSome_iff_exists.mp
      (rfindIdx_isSome_of_findIdx _ _ _ hl)
    rw [mapperPoints_no_bonus mtch cur wa w1 hg1 hd11 hd12,
        mapperPoints_no_bonus mtch cur wa w2 hg2 hd21 hd22,
        basePoints_exact mtch w1 hn1 hc1,
        basePoints_substr mtch w2 l rf hn2 hl hrf hc2]
    have hmin := substr_min_nonneg mtch w2.name l rf hrf
    linarith
  · intro w2 w3 l rf hn2 hl hrf hc2 hg2 hd21 hd22 hmin50 hn3 hf3 hc3 hg3
      hd31 hd32
    rw [mapperPoints_no_bonus mtch cur wa w2 hg2 hd21 hd22,
        mapperPoints_no_bonus mtch cur wa w3 hg3 hd31 hd32,
        basePoints_substr mtch w2 l rf hn2 hl hrf hc2,
        basePoints_classonly mtch w3 hn3 hf3 hc3]
    linarith
  · have hsorted : List.Sorted Pywo.scoreOrder
        (List.insertionSort Pywo.scoreOrder
          (ws.map (fun w =>
            (w, Pywo.WindowManager.mapperPoints mtch cur wa w)))) :=
      List.sorted_insertionSort _ _
    have hfilter := hsorted.filter (fun p => p.2 != 0)
    simp only [Pywo.WindowManager.name_matcher]
    rw [List.pairwise_map]
    refine List.Pairwise.imp_of_mem ?_ hfilter
    intro a b ha hb hab
    have ha3 := (List.perm_insertionSort Pywo.scoreOrder _).mem_iff.mp
      (List.mem_of_mem_filter ha)
    have hb3 := (List.perm_insertionSort Pywo.scoreOrder _).mem_iff.mp
      (List.mem_of_mem_filter hb)
    obtain ⟨wA, hwA, rfl⟩ := List.mem_map.mp ha3
    obtain ⟨wB, hwB, rfl⟩ := List.mem_map.mp hb3
    exact hab
  · intro w
    simp only [Pywo.WindowManager.name_matcher]
    constructor
    · intro hw
      obtain ⟨p, hpmem, hpeq⟩ := List.mem_map.mp hw
      obtain ⟨hpsorted, hppred⟩ := List.mem_filter.mp hpmem
      have hpscored := (List.perm_insertionSort Pywo.scoreOrder _).mem_iff.mp
        hpsorted
      obtain ⟨w0, hw0, hw0eq⟩ := List.mem_map.mp hpscored
      subst hw0eq
      cases hpeq
      refine ⟨hw0, ?_⟩
      simpa using hppred
    · rintro ⟨hmem, hne⟩
      apply List.mem_map.mpr
      refine ⟨(w, Pywo.WindowManager.mapperPoints mtch cur wa w), ?_, rfl⟩
      apply List.mem_filter.mpr
      refine ⟨(List.perm_insertionSort Pywo.scoreOrder _).mem_iff.mpr
        (List.mem_map.mpr ⟨w, hmem, rfl⟩), ?_⟩
      simpa using hne

/-- Witness for C9 at concrete inputs: query "a"; an exact-name window
scores above a substring window (both bonus-free), which scores above a
class-only window. -/
theorem C9_matcher_scoring_witness :
    Pywo.WindowManager.mapperPoints ['a'] 0 ⟨0, 0, 100, 100⟩
        ⟨['a'], ['x'], 1, some ⟨0, 0, 10, 10⟩⟩ >
      Pywo.WindowManager.mapperPoints ['a'] 0 ⟨0, 0, 100, 100⟩
        ⟨['b', 'a'], ['x'], 1, some ⟨0, 0, 10, 10⟩⟩ ∧
    Pywo.WindowManager.mapperPoints ['a'] 0 ⟨0, 0, 100, 100⟩
        ⟨['b', 'a'], ['x'], 1, some ⟨0, 0, 10, 10⟩⟩ >
      Pywo.WindowManager.mapperPoints ['a'] 0 ⟨0, 0, 100, 100⟩
        ⟨['c'], ['a', 'x'], 1, some ⟨0, 0, 10, 10⟩⟩ :=
  ⟨(C9_matcher_scoring ['a'] 0 ⟨0, 0, 100, 100⟩ []).1 _ _ rfl (by decide)
      (by decide) (by decide) (by decide) (by decide) (by decide) (by decide)
      (by decide) (by decide) (by decide),
   (C9_matcher_scoring ['a'] 0 ⟨0, 0, 100, 100⟩ []).2.1 _ _ 1 1 (by decide)
      (by decide) (by decide) (by decide) (by decide) (by decide) (by decide)
      (by decide) (by decide) (by decide) (by decide) (by decide) (by decide)
      (by decide)⟩
